import Mathlib

/-!
Shallow embedding of the scam-detection engine of `defi-research-agent`
(the `ScamDetector` class in `scam-detector.ts` and the `ContractScanner`
class in `contract-scanner.ts`), together with theorems checking the
claims of the specification about it.

Modelling conventions:
* JavaScript numbers holding integer values (scores, taxes, timestamps,
  counts) are modelled as `ℤ`; fractional quantities (holder percentages,
  engagement ratios, sentiment) as `ℚ`, so arithmetic is exact.
* `Math.round` is `jsRound q = ⌊q + 1/2⌋`.
* The ambient clock `Date.now()` is passed explicitly as a parameter
  `now : ℤ` (milliseconds since epoch).
* The D1 database query in `matchScamPatterns` is modelled by an explicit
  registry argument of type `Except String (List ScamPattern)`: `.ok` is
  the row set returned by `all()`, `.error` a rejected promise (storage
  unavailable).  The source has no try/catch around the query.
* `Array.prototype.sort` sorts in place; `generateWarnings` therefore
  leaves the collected flag array severity-sorted, which the embedding
  reflects by storing the sorted list in the returned record.
-/

/-- Severity union type of `RedFlag.severity` in `types.ts`. -/
inductive Severity where
  | CRITICAL
  | HIGH
  | MEDIUM
  | LOW
  deriving DecidableEq

/-- Category union type of `RedFlag.category` in `types.ts`. -/
inductive Category where
  | CONTRACT
  | TOKENOMICS
  | TEAM
  | COMMUNITY
  | LIQUIDITY
  deriving DecidableEq

/-- The `RedFlag` interface of `types.ts` (`evidence` is optional there). -/
structure RedFlag where
  severity : Severity
  category : Category
  description : String
  evidence : Option String
  deriving DecidableEq

/-- Recommendation union type of `RiskScore.recommendation` in `types.ts`. -/
inductive Recommendation where
  | AVOID
  | HIGH_RISK
  | MODERATE_RISK
  | LOW_RISK
  | SAFE
  deriving DecidableEq

/-- The `ContractAnalysis` interface of `types.ts`. -/
structure ContractAnalysis where
  verified : Bool
  isProxy : Bool
  hasHoneypot : Bool
  hasMintFunction : Bool
  hasPauseFunction : Bool
  hasBlacklist : Bool
  hasWhitelist : Bool
  buyTax : ℤ
  sellTax : ℤ
  ownershipRenounced : Bool
  maxWalletLimit : Option ℤ
  maxTxLimit : Option ℤ
  lpLocked : Bool
  lpLockDuration : Option ℤ
  creatorAddress : String
  creationTimestamp : ℤ
  deriving DecidableEq

/-- One entry of `TokenomicsAnalysis.topHolders` in `types.ts`. -/
structure Holder where
  address : String
  balance : String
  percentage : ℚ
  deriving DecidableEq

/-- The `TokenomicsAnalysis` interface of `types.ts`.  `lpTokens` is a
string in the source and is fed through `parseFloat`; it is modelled here
as the parsed numeric value, `none` standing for an absent or falsy
string. -/
structure TokenomicsAnalysis where
  totalSupply : String
  circulatingSupply : String
  topHolders : List Holder
  holderCount : ℤ
  lpPairAddress : Option String
  lpTokens : Option ℚ
  marketCap : ℚ
  fullyDilutedValue : ℚ
  deriving DecidableEq

/-- One entry of `TeamAnalysis.members` in `types.ts`. -/
structure TeamMember where
  name : String
  role : String
  linkedin : Option String
  twitter : Option String
  background : Option String
  deriving DecidableEq

/-- The `TeamAnalysis` interface of `types.ts`. -/
structure TeamAnalysis where
  isDoxxed : Bool
  members : Option (List TeamMember)
  previousProjects : Option (List String)
  scamHistory : Bool
  deriving DecidableEq

/-- The `CommunityAnalysis` interface of `types.ts`. -/
structure CommunityAnalysis where
  twitterFollowers : ℤ
  twitterEngagement : ℚ
  telegramMembers : ℤ
  discordMembers : ℤ
  holderGrowthRate : ℚ
  sentimentScore : ℚ
  botActivity : ℚ
  deriving DecidableEq

/-- The `ProjectData` interface of `types.ts`. -/
structure ProjectData where
  id : String
  contractAddress : String
  name : String
  symbol : Option String
  chain : String
  discoveredAt : ℤ
  description : Option String
  category : Option String
  website : Option String
  twitter : Option String
  telegram : Option String
  discord : Option String
  whitepaper : Option String
  github : Option String
  deriving DecidableEq

/-- One row of the `scam_patterns` table, as consumed by
`matchScamPatterns`: the source casts `severity` and `pattern_type`
blindly (`as any`) onto the `RedFlag` union types, and parses
`indicators` as a JSON array of strings. -/
structure ScamPattern where
  patternType : Category
  description : String
  indicators : List String
  severity : Severity
  deriving DecidableEq

/-- The `RiskScore` interface of `types.ts`. -/
structure RiskScore where
  overall : ℤ
  contractSafety : ℤ
  tokenomics : ℤ
  teamCredibility : ℤ
  communityHealth : ℤ
  liquidityRisk : ℤ
  redFlags : List RedFlag
  warnings : List String
  recommendation : Recommendation
  analysisTimestamp : ℤ
  deriving DecidableEq

/-- JavaScript `Math.round` on exact rationals: round half toward
positive infinity. -/
def jsRound (q : ℚ) : ℤ := ⌊q + 1/2⌋

/-- JavaScript `x.toFixed(2)` on exact rationals: round to two decimal
places and render with exactly two fraction digits. -/
def toFixed2 (q : ℚ) : String :=
  let n : ℤ := jsRound (q * 100)
  let sign := if n < 0 then "-" else ""
  let m := n.natAbs
  let r := m % 100
  sign ++ toString (m / 100) ++ "." ++ (if r < 10 then "0" else "") ++ toString r

/-- The string name of a severity, as it appears in the TypeScript union
type and in rendered warnings. -/
def severityName : Severity → String
  | .CRITICAL => "CRITICAL"
  | .HIGH => "HIGH"
  | .MEDIUM => "MEDIUM"
  | .LOW => "LOW"

/-- Result of `blockchain.getContractSource`. -/
structure SourceInfo where
  isVerified : Bool
  sourceCode : String
  deriving DecidableEq

/-- Result of `blockchain.getContractCreation`. -/
structure ContractCreation where
  creator : String
  timestamp : ℤ
  deriving DecidableEq

/-- The regex/substring heuristics of `ContractScanner`
(`detectProxyPattern`, `detectMintFunction`, ...).  No claim depends on
their bodies (the claims about `analyzeContract` concern the unverified
early return, which is taken before any of them runs), so they appear as
an abstract parameter record rather than as an embedding of the regular
expressions; `detectTaxes` returns the `(buy, sell)` pair. -/
structure SourceDetectors where
  detectProxyPattern : String → Bool
  detectMintFunction : String → Bool
  detectPauseFunction : String → Bool
  detectBlacklist : String → Bool
  detectWhitelist : String → Bool
  detectHoneypot : String → Bool
  detectTaxes : String → ℤ × ℤ
  detectOwnershipRenounced : String → Bool

/-- Embedding of `ContractScanner.analyzeContract`: build the default analysis record,
return it unchanged when the source is absent or unverified, otherwise run
the textual detectors over the lower-cased source. -/
def analyzeContract (det : SourceDetectors) (sourceInfo : Option SourceInfo)
    (creation : Option ContractCreation) : ContractAnalysis :=
  let analysis : ContractAnalysis :=
    { verified := (match sourceInfo with | some s => s.isVerified | none => false)
      isProxy := false
      hasHoneypot := false
      hasMintFunction := false
      hasPauseFunction := false
      hasBlacklist := false
      hasWhitelist := false
      buyTax := 0
      sellTax := 0
      ownershipRenounced := false
      maxWalletLimit := none
      maxTxLimit := none
      lpLocked := false
      lpLockDuration := none
      creatorAddress := (match creation with | some c => c.creator | none => "Unknown")
      creationTimestamp := (match creation with | some c => c.timestamp | none => 0) }
  match sourceInfo with
  | none => analysis
  | some s =>
    if ¬s.isVerified then analysis
    else
      let sourceCode := s.sourceCode.toLower
      let taxes := det.detectTaxes sourceCode
      { analysis with
          isProxy := det.detectProxyPattern sourceCode
          hasMintFunction := det.detectMintFunction sourceCode
          hasPauseFunction := det.detectPauseFunction sourceCode
          hasBlacklist := det.detectBlacklist sourceCode
          hasWhitelist := det.detectWhitelist sourceCode
          hasHoneypot := det.detectHoneypot sourceCode
          buyTax := taxes.1
          sellTax := taxes.2
          ownershipRenounced := det.detectOwnershipRenounced sourceCode
          lpLocked := false }

/-- Embedding of `ContractScanner.generateRedFlags`.  `now` is the ambient
`Date.now()` read by the liquidity-age rule. -/
def generateRedFlags (analysis : ContractAnalysis) (now : ℤ) : List RedFlag :=
  (if ¬analysis.verified then
    [⟨.CRITICAL, .CONTRACT, "Contract source code is not verified",
      some "Cannot analyze unverified contract code"⟩] else []) ++
  (if analysis.hasHoneypot then
    [⟨.CRITICAL, .CONTRACT, "Honeypot detected - may not be able to sell",
      some "Contract contains transfer restrictions that could prevent selling"⟩] else []) ++
  (if analysis.isProxy ∧ analysis.hasMintFunction ∧ ¬analysis.ownershipRenounced then
    [⟨.CRITICAL, .CONTRACT, "Upgradeable contract with mint function and active owner",
      some "Owner can upgrade contract to mint unlimited tokens"⟩] else []) ++
  (if analysis.hasMintFunction ∧ ¬analysis.ownershipRenounced then
    [⟨.HIGH, .CONTRACT, "Contract has mint function and ownership not renounced",
      some "Owner can mint new tokens at any time"⟩] else []) ++
  (if analysis.buyTax > 10 ∨ analysis.sellTax > 10 then
    [⟨.HIGH, .CONTRACT, "Excessive trading taxes detected",
      some ("Buy tax: " ++ toString analysis.buyTax ++ "%, Sell tax: " ++
        toString analysis.sellTax ++ "%")⟩] else []) ++
  (if analysis.hasBlacklist ∧ ¬analysis.ownershipRenounced then
    [⟨.MEDIUM, .CONTRACT, "Contract can blacklist addresses",
      some "Owner can prevent specific addresses from trading"⟩] else []) ++
  (if analysis.hasPauseFunction ∧ ¬analysis.ownershipRenounced then
    [⟨.MEDIUM, .CONTRACT, "Contract can be paused by owner",
      some "Owner can halt all trading at any time"⟩] else []) ++
  (if ¬analysis.lpLocked ∧ analysis.creationTimestamp > 0 ∧
      now - analysis.creationTimestamp * 1000 < 7 * 24 * 60 * 60 * 1000 then
    [⟨.HIGH, .LIQUIDITY, "Liquidity not locked for new token",
      some "LP tokens are not locked, rug pull risk"⟩] else [])

/-- Embedding of `ScamDetector.checkTokenomicsRedFlags`. -/
def checkTokenomicsRedFlags (tokenomics : TokenomicsAnalysis) : List RedFlag :=
  let top10Percentage : ℚ := ((tokenomics.topHolders.take 10).map Holder.percentage).sum
  (if top10Percentage > 50 then
    [⟨.HIGH, .TOKENOMICS, "High concentration in top 10 holders",
      some ("Top 10 holders own " ++ toFixed2 top10Percentage ++ "% of supply")⟩] else []) ++
  (match tokenomics.topHolders.head? with
   | some largestHolder =>
      if largestHolder.percentage > 20 then
        [⟨.HIGH, .TOKENOMICS, "Single address holds too much supply",
          some ("Largest holder owns " ++ toFixed2 largestHolder.percentage ++
            "% of supply")⟩] else []
   | none => []) ++
  (if tokenomics.holderCount < 100 then
    [⟨.MEDIUM, .TOKENOMICS, "Very few token holders",
      some ("Only " ++ toString tokenomics.holderCount ++ " holders")⟩] else []) ++
  (match tokenomics.lpTokens with
   | some lp =>
      if tokenomics.marketCap > 0 ∧ lp / tokenomics.marketCap < 0.05 then
        [⟨.HIGH, .LIQUIDITY, "Very low liquidity relative to market cap",
          some ("Liquidity is only " ++ toFixed2 (lp / tokenomics.marketCap * 100) ++
            "% of market cap")⟩] else []
   | none => [])

/-- Embedding of `ScamDetector.checkTeamRedFlags`. -/
def checkTeamRedFlags (team : TeamAnalysis) : List RedFlag :=
  (if ¬team.isDoxxed then
    [⟨.MEDIUM, .TEAM, "Anonymous team", some "No verified team member identities"⟩]
   else []) ++
  (if team.scamHistory then
    [⟨.CRITICAL, .TEAM, "Team has history of scam projects",
      some "Team members involved in previous rug pulls or scams"⟩] else []) ++
  (match team.members with
   | some members =>
      if members.length = 0 then
        [⟨.HIGH, .TEAM, "No team information available",
          some "Cannot verify team members"⟩] else []
   | none => [])

/-- Embedding of `ScamDetector.checkCommunityRedFlags`. -/
def checkCommunityRedFlags (community : CommunityAnalysis) : List RedFlag :=
  (if community.botActivity > 50 then
    [⟨.HIGH, .COMMUNITY, "High bot activity detected",
      some (toString community.botActivity ++ "% estimated bot activity")⟩] else []) ++
  (if community.twitterFollowers > 1000 ∧ community.twitterEngagement < 0.5 then
    [⟨.MEDIUM, .COMMUNITY, "Low engagement relative to follower count",
      some "Possible fake/bought followers"⟩] else []) ++
  (if community.sentimentScore < -0.5 then
    [⟨.MEDIUM, .COMMUNITY, "Negative community sentiment",
      some ("Sentiment score: " ++ toFixed2 community.sentimentScore)⟩] else [])

/-- The body of the indicator loop in `ScamDetector.checkPatternMatch`:
the four recognized indicator names and the match label each one pushes;
any other name matches nothing. -/
def indicatorMatches (indicator : String) (contractAnalysis : ContractAnalysis) :
    List String :=
  (if indicator = "is_proxy" ∧ contractAnalysis.isProxy then
    ["Is proxy contract"] else []) ++
  (if indicator = "has_mint" ∧ contractAnalysis.hasMintFunction then
    ["Has mint function"] else []) ++
  (if indicator = "ownership_not_renounced" ∧ ¬contractAnalysis.ownershipRenounced then
    ["Ownership not renounced"] else []) ++
  (if indicator = "lp_not_locked" ∧ ¬contractAnalysis.lpLocked then
    ["LP not locked"] else [])

/-- Embedding of `ScamDetector.checkPatternMatch`: collect the labels of all matching
indicators, in indicator order. -/
def checkPatternMatch (indicators : List String)
    (contractAnalysis : ContractAnalysis) : List String :=
  indicators.flatMap (fun indicator => indicatorMatches indicator contractAnalysis)

/-- The pattern loop of `ScamDetector.matchScamPatterns`: one flag per
pattern with at least one matching indicator, carrying the severity,
category and description of the pattern itself, the evidence being the match labels
joined by a comma. -/
def matchScamPatternsOk (patterns : List ScamPattern)
    (contractAnalysis : ContractAnalysis) : List RedFlag :=
  patterns.flatMap (fun pattern =>
    let matchLabels := checkPatternMatch pattern.indicators contractAnalysis
    if matchLabels.length > 0 then
      [⟨pattern.severity, pattern.patternType, pattern.description,
        some (String.intercalate ", " matchLabels)⟩]
    else [])

/-- Embedding of `ScamDetector.matchScamPatterns`: await the registry query (there is
no try/catch, so a rejected query propagates), then run the pattern
loop.  The `projectData` parameter is taken, as in the source, but never
read. -/
def matchScamPatterns (projectData : ProjectData)
    (contractAnalysis : ContractAnalysis)
    (registry : Except String (List ScamPattern)) :
    Except String (List RedFlag) :=
  match registry with
  | .error e => .error e
  | .ok patterns => .ok (matchScamPatternsOk patterns contractAnalysis)

/-- The final clamp `Math.max(0, Math.min(100, score))` shared by all five
sub-score calculators. -/
def clampScore (score : ℤ) : ℤ := max 0 (min 100 score)

/-- The severity switch of `calculateContractSafety` (and, with the same
values, of `calculateTokenomicsScore`). -/
def contractDeduction : Severity → ℤ
  | .CRITICAL => 30
  | .HIGH => 20
  | .MEDIUM => 10
  | .LOW => 5

/-- The severity switch of `calculateTeamScore` (no `LOW` case: a `LOW`
flag deducts nothing). -/
def teamDeduction : Severity → ℤ
  | .CRITICAL => 40
  | .HIGH => 20
  | .MEDIUM => 10
  | .LOW => 0

/-- The severity switch of `calculateCommunityScore` (no `CRITICAL` or
`LOW` case). -/
def communityDeduction : Severity → ℤ
  | .CRITICAL => 0
  | .HIGH => 20
  | .MEDIUM => 10
  | .LOW => 0

/-- The severity switch of `calculateLiquidityRisk` (no `LOW` case). -/
def liquidityDeduction : Severity → ℤ
  | .CRITICAL => 30
  | .HIGH => 20
  | .MEDIUM => 10
  | .LOW => 0

/-- Embedding of `ScamDetector.calculateContractSafety`: start from 100, deduct per
CONTRACT-category flag, add bonuses for good practices, clamp. -/
def calculateContractSafety (contractAnalysis : ContractAnalysis)
    (redFlags : List RedFlag) : ℤ :=
  clampScore (100 -
    ((redFlags.filter (fun f => decide (f.category = Category.CONTRACT))).map
      (fun f => contractDeduction f.severity)).sum +
    (if contractAnalysis.verified then 10 else 0) +
    (if contractAnalysis.ownershipRenounced then 10 else 0) +
    (if contractAnalysis.lpLocked then 10 else 0))

/-- Embedding of `ScamDetector.calculateTokenomicsScore`: start from 100, deduct per
TOKENOMICS-category flag, clamp.  The `tokenomics` argument is taken, as
in the source, but never read. -/
def calculateTokenomicsScore (tokenomics : TokenomicsAnalysis)
    (redFlags : List RedFlag) : ℤ :=
  clampScore (100 -
    ((redFlags.filter (fun f => decide (f.category = Category.TOKENOMICS))).map
      (fun f => contractDeduction f.severity)).sum)

/-- Embedding of `ScamDetector.calculateTeamScore`: start neutral at 50, add bonuses,
deduct per TEAM-category flag, clamp. -/
def calculateTeamScore (team : TeamAnalysis) (redFlags : List RedFlag) : ℤ :=
  clampScore (50 + (if team.isDoxxed then 30 else 0) +
    (match team.members with
     | some members => if members.length > 0 then 10 else 0
     | none => 0) +
    (match team.previousProjects with
     | some previousProjects => if previousProjects.length > 0 then 10 else 0
     | none => 0) -
    ((redFlags.filter (fun f => decide (f.category = Category.TEAM))).map
      (fun f => teamDeduction f.severity)).sum)

/-- Embedding of `ScamDetector.calculateCommunityScore`: start at 50, add bonuses for
positive indicators, deduct per COMMUNITY-category flag, clamp. -/
def calculateCommunityScore (community : CommunityAnalysis)
    (redFlags : List RedFlag) : ℤ :=
  clampScore (50 + (if community.holderGrowthRate > 0 then 10 else 0) +
    (if community.sentimentScore > 0.5 then 10 else 0) +
    (if community.twitterEngagement > 2 then 10 else 0) -
    ((redFlags.filter (fun f => decide (f.category = Category.COMMUNITY))).map
      (fun f => communityDeduction f.severity)).sum)

/-- Embedding of `ScamDetector.calculateLiquidityRisk`: start at 50, add the LP-lock
bonus, deduct per LIQUIDITY-category flag, clamp. -/
def calculateLiquidityRisk (contractAnalysis : ContractAnalysis)
    (redFlags : List RedFlag) : ℤ :=
  clampScore (50 + (if contractAnalysis.lpLocked then 30 else 0) -
    ((redFlags.filter (fun f => decide (f.category = Category.LIQUIDITY))).map
      (fun f => liquidityDeduction f.severity)).sum)

/-- Embedding of `ScamDetector.determineRecommendation`. -/
def determineRecommendation (overallScore : ℤ) (redFlags : List RedFlag) :
    Recommendation :=
  let hasCritical := redFlags.any (fun f => decide (f.severity = Severity.CRITICAL))
  if hasCritical ∨ overallScore < 30 then .AVOID
  else if overallScore < 50 then .HIGH_RISK
  else if overallScore < 70 then .MODERATE_RISK
  else if overallScore < 85 then .LOW_RISK
  else .SAFE

/-- The numeric rank `severityOrder` used by the comparator in
`generateWarnings`. -/
def severityOrder : Severity → ℤ
  | .CRITICAL => 0
  | .HIGH => 1
  | .MEDIUM => 2
  | .LOW => 3

/-- The order the comparator `severityOrder[a.severity] -
severityOrder[b.severity]` in `generateWarnings` sorts by. -/
def flagLE (a b : RedFlag) : Prop :=
  severityOrder a.severity ≤ severityOrder b.severity

instance : DecidableRel flagLE := fun a b => Int.decLe _ _

instance : IsTotal RedFlag flagLE :=
  ⟨fun a b => le_total (severityOrder a.severity) (severityOrder b.severity)⟩

instance : IsTrans RedFlag flagLE :=
  ⟨fun _ _ _ hab hbc => le_trans hab hbc⟩

/-- The in-place stable sort performed by `redFlags.sort(comparator)` in
`generateWarnings` (`Array.prototype.sort` is stable): ascending by
`severityOrder`. -/
def sortFlags (redFlags : List RedFlag) : List RedFlag :=
  redFlags.insertionSort flagLE

/-- Embedding of `ScamDetector.generateWarnings`: sort (mutating the array) and render
each flag as `[SEVERITY] description`. -/
def generateWarnings (redFlags : List RedFlag) : List String :=
  (sortFlags redFlags).map
    (fun flag => "[" ++ severityName flag.severity ++ "] " ++ flag.description)

/-- The optional-input fallback of `detectScam`:
`tokenomics ? calculateTokenomicsScore(...) : 50`. -/
def tokenomicsScoreOpt (tokenomics : Option TokenomicsAnalysis)
    (redFlags : List RedFlag) : ℤ :=
  match tokenomics with
  | some t => calculateTokenomicsScore t redFlags
  | none => 50

/-- The optional-input fallback of `detectScam` for the team score. -/
def teamScoreOpt (teamAnalysis : Option TeamAnalysis)
    (redFlags : List RedFlag) : ℤ :=
  match teamAnalysis with
  | some t => calculateTeamScore t redFlags
  | none => 50

/-- The optional-input fallback of `detectScam` for the community score. -/
def communityScoreOpt (communityAnalysis : Option CommunityAnalysis)
    (redFlags : List RedFlag) : ℤ :=
  match communityAnalysis with
  | some c => calculateCommunityScore c redFlags
  | none => 50

/-- The red flags `detectScam` collects before pattern matching, in
insertion order: contract flags, then tokenomics, team and community
flags when those inputs are present. -/
def collectBaseRedFlags (contractAnalysis : ContractAnalysis)
    (tokenomics : Option TokenomicsAnalysis)
    (teamAnalysis : Option TeamAnalysis)
    (communityAnalysis : Option CommunityAnalysis) (now : ℤ) : List RedFlag :=
  generateRedFlags contractAnalysis now ++
  (match tokenomics with
   | some t => checkTokenomicsRedFlags t
   | none => []) ++
  (match teamAnalysis with
   | some t => checkTeamRedFlags t
   | none => []) ++
  (match communityAnalysis with
   | some c => checkCommunityRedFlags c
   | none => [])

/-- The tail of `detectScam` once the full red-flag list is known: the
five sub-scores, the weighted rounded overall, the recommendation, then
`generateWarnings` (whose in-place sort leaves `redFlags` severity-sorted
in the returned record) and the timestamp. -/
def buildRiskScore (contractAnalysis : ContractAnalysis)
    (tokenomics : Option TokenomicsAnalysis)
    (teamAnalysis : Option TeamAnalysis)
    (communityAnalysis : Option CommunityAnalysis)
    (redFlags : List RedFlag) (now : ℤ) : RiskScore :=
  let contractSafety := calculateContractSafety contractAnalysis redFlags
  let tokenomicsScore := tokenomicsScoreOpt tokenomics redFlags
  let teamCredibility := teamScoreOpt teamAnalysis redFlags
  let communityHealth := communityScoreOpt communityAnalysis redFlags
  let liquidityRisk := calculateLiquidityRisk contractAnalysis redFlags
  let overall := jsRound ((contractSafety : ℚ) * 0.3 + (tokenomicsScore : ℚ) * 0.25 +
    (teamCredibility : ℚ) * 0.2 + (communityHealth : ℚ) * 0.15 +
    (liquidityRisk : ℚ) * 0.1)
  let recommendation := determineRecommendation overall redFlags
  let warnings := generateWarnings redFlags
  { overall := overall
    contractSafety := contractSafety
    tokenomics := tokenomicsScore
    teamCredibility := teamCredibility
    communityHealth := communityHealth
    liquidityRisk := liquidityRisk
    redFlags := sortFlags redFlags
    warnings := warnings
    recommendation := recommendation
    analysisTimestamp := now }

/-- Embedding of `ScamDetector.detectScam`: collect contract, tokenomics, team and
community red flags, await pattern matching against the registry (a
rejected registry query propagates; nothing catches it), then score. -/
def detectScam (projectData : ProjectData) (contractAnalysis : ContractAnalysis)
    (tokenomics : Option TokenomicsAnalysis)
    (teamAnalysis : Option TeamAnalysis)
    (communityAnalysis : Option CommunityAnalysis)
    (registry : Except String (List ScamPattern)) (now : ℤ) :
    Except String RiskScore :=
  match matchScamPatterns projectData contractAnalysis registry with
  | .error e => .error e
  | .ok patternRedFlags =>
    .ok (buildRiskScore contractAnalysis tokenomics teamAnalysis communityAnalysis
      (collectBaseRedFlags contractAnalysis tokenomics teamAnalysis communityAnalysis now ++
        patternRedFlags) now)

/-- A sample project record.  `detectScam` never reads its argument of
this type. -/
def sampleProject : ProjectData :=
  { id := "proj-1", contractAddress := "0x1111", name := "Sample",
    symbol := some "SMP", chain := "ethereum", discoveredAt := 0,
    description := none, category := none, website := none, twitter := none,
    telegram := none, discord := none, whitepaper := none, github := none }

/-- A second, different project record, for the project-independence
claim. -/
def otherProject : ProjectData :=
  { sampleProject with id := "proj-2", contractAddress := "0x2222", name := "Other" }

/-- Scenario A of the spec: the fully honest token analysis. -/
def honestAnalysis : ContractAnalysis :=
  { verified := true, isProxy := false, hasHoneypot := false,
    hasMintFunction := false, hasPauseFunction := false, hasBlacklist := false,
    hasWhitelist := false, buyTax := 0, sellTax := 0, ownershipRenounced := true,
    maxWalletLimit := none, maxTxLimit := none, lpLocked := true,
    lpLockDuration := none, creatorAddress := "0xaaaa", creationTimestamp := 0 }

/-- The analysis `analyzeContract` returns for an unverified source with
no creation info: every boolean false, taxes zero. -/
def unverifiedAnalysis : ContractAnalysis :=
  { verified := false, isProxy := false, hasHoneypot := false,
    hasMintFunction := false, hasPauseFunction := false, hasBlacklist := false,
    hasWhitelist := false, buyTax := 0, sellTax := 0, ownershipRenounced := false,
    maxWalletLimit := none, maxTxLimit := none, lpLocked := false,
    lpLockDuration := none, creatorAddress := "Unknown", creationTimestamp := 0 }

/-- An unverified analysis that nevertheless carries the ownership and
LP-lock bonuses. -/
def unverifiedBonusedAnalysis : ContractAnalysis :=
  { unverifiedAnalysis with ownershipRenounced := true, lpLocked := true }

/-- A verified analysis with a blacklist and unlocked liquidity on a
young token: its red flags are collected MEDIUM before HIGH. -/
def blacklistYoungAnalysis : ContractAnalysis :=
  { verified := true, isProxy := false, hasHoneypot := false,
    hasMintFunction := false, hasPauseFunction := false, hasBlacklist := true,
    hasWhitelist := false, buyTax := 0, sellTax := 0, ownershipRenounced := false,
    maxWalletLimit := none, maxTxLimit := none, lpLocked := false,
    lpLockDuration := none, creatorAddress := "0xbbbb", creationTimestamp := 1 }

/-- A detector record whose heuristics never fire, for instantiating
theorems quantified over the abstract detectors. -/
def trivialDetectors : SourceDetectors :=
  { detectProxyPattern := fun _ => false, detectMintFunction := fun _ => false,
    detectPauseFunction := fun _ => false, detectBlacklist := fun _ => false,
    detectWhitelist := fun _ => false, detectHoneypot := fun _ => false,
    detectTaxes := fun _ => (0, 0), detectOwnershipRenounced := fun _ => false }

/-- The CRITICAL flag `ContractScanner.generateRedFlags` emits for an
unverified source. -/
def unverifiedSourceFlag : RedFlag :=
  ⟨Severity.CRITICAL, Category.CONTRACT, "Contract source code is not verified",
    some "Cannot analyze unverified contract code"⟩

theorem jsRound_weighted (a b c d e : ℤ) :
    jsRound ((a : ℚ) * 0.3 + (b : ℚ) * 0.25 + (c : ℚ) * 0.2 + (d : ℚ) * 0.15 +
        (e : ℚ) * 0.1) =
      (30 * a + 25 * b + 20 * c + 15 * d + 10 * e + 50) / 100 := by
  unfold jsRound
  have h : (a : ℚ) * 0.3 + (b : ℚ) * 0.25 + (c : ℚ) * 0.2 + (d : ℚ) * 0.15 +
      (e : ℚ) * 0.1 + 1/2 =
      ((30 * a + 25 * b + 20 * c + 15 * d + 10 * e + 50 : ℤ) : ℚ) / ((100 : ℕ) : ℚ) := by
    push_cast
    ring
  rw [h, Rat.floor_intCast_div_natCast]
  norm_num

theorem buildRiskScore_overall (ca : ContractAnalysis)
    (tk : Option TokenomicsAnalysis) (tm : Option TeamAnalysis)
    (cm : Option CommunityAnalysis) (redFlags : List RedFlag) (now : ℤ) :
    (buildRiskScore ca tk tm cm redFlags now).overall =
      (30 * calculateContractSafety ca redFlags + 25 * tokenomicsScoreOpt tk redFlags +
        20 * teamScoreOpt tm redFlags + 15 * communityScoreOpt cm redFlags +
        10 * calculateLiquidityRisk ca redFlags + 50) / 100 := by
  unfold buildRiskScore
  exact jsRound_weighted _ _ _ _ _

theorem buildRiskScore_recommendation (ca : ContractAnalysis)
    (tk : Option TokenomicsAnalysis) (tm : Option TeamAnalysis)
    (cm : Option CommunityAnalysis) (redFlags : List RedFlag) (now : ℤ) :
    (buildRiskScore ca tk tm cm redFlags now).recommendation =
      determineRecommendation
        ((30 * calculateContractSafety ca redFlags + 25 * tokenomicsScoreOpt tk redFlags +
          20 * teamScoreOpt tm redFlags + 15 * communityScoreOpt cm redFlags +
          10 * calculateLiquidityRisk ca redFlags + 50) / 100) redFlags := by
  have h : (buildRiskScore ca tk tm cm redFlags now).recommendation =
      determineRecommendation ((buildRiskScore ca tk tm cm redFlags now).overall)
        redFlags := rfl
  rw [h, buildRiskScore_overall]


theorem detectScam_ok_eq (pd : ProjectData) (ca : ContractAnalysis)
    (tk : Option TokenomicsAnalysis) (tm : Option TeamAnalysis)
    (cm : Option CommunityAnalysis) (ps : List ScamPattern) (now : ℤ) :
    detectScam pd ca tk tm cm (Except.ok ps) now =
      Except.ok (buildRiskScore ca tk tm cm
        (collectBaseRedFlags ca tk tm cm now ++ matchScamPatternsOk ps ca) now) := rfl

theorem clampScore_nonneg (x : ℤ) : 0 ≤ clampScore x := le_max_left 0 _

theorem clampScore_le_hundred (x : ℤ) : clampScore x ≤ 100 :=
  max_le (by norm_num) (min_le_left _ _)

theorem clampScore_mono {x y : ℤ} (h : x ≤ y) : clampScore x ≤ clampScore y :=
  max_le_max le_rfl (min_le_min le_rfl h)

theorem contractDeduction_nonneg (s : Severity) : 0 ≤ contractDeduction s := by
  cases s <;> decide

theorem teamDeduction_nonneg (s : Severity) : 0 ≤ teamDeduction s := by
  cases s <;> decide

theorem communityDeduction_nonneg (s : Severity) : 0 ≤ communityDeduction s := by
  cases s <;> decide

theorem liquidityDeduction_nonneg (s : Severity) : 0 ≤ liquidityDeduction s := by
  cases s <;> decide

theorem deductionSum_nonneg (p : RedFlag → Bool) (ded : RedFlag → ℤ)
    (hded : ∀ g, 0 ≤ ded g) (flags : List RedFlag) :
    0 ≤ ((flags.filter p).map ded).sum := by
  apply List.sum_nonneg
  intro x hx
  rcases List.mem_map.mp hx with ⟨g, _, rfl⟩
  exact hded g

theorem deductionSum_append_le (p : RedFlag → Bool) (ded : RedFlag → ℤ)
    (hded : ∀ g, 0 ≤ ded g) (flags : List RedFlag) (f : RedFlag) :
    ((flags.filter p).map ded).sum ≤ (((flags ++ [f]).filter p).map ded).sum := by
  rw [List.filter_append, List.map_append, List.sum_append]
  have h : 0 ≤ ((([f]).filter p).map ded).sum :=
    deductionSum_nonneg p ded hded [f]
  linarith

theorem sortFlags_sorted (l : List RedFlag) : List.Sorted flagLE (sortFlags l) :=
  List.sorted_insertionSort flagLE l

theorem sortFlags_perm (l : List RedFlag) : (sortFlags l).Perm l :=
  List.perm_insertionSort flagLE l

theorem filter_orderedInsert_of_rank_eq (k : ℤ) (a : RedFlag)
    (h : severityOrder a.severity = k) (l : List RedFlag) :
    (List.orderedInsert flagLE a l).filter
        (fun f => decide (severityOrder f.severity = k)) =
      a :: l.filter (fun f => decide (severityOrder f.severity = k)) := by
  induction l with
  | nil => simp [List.orderedInsert, h]
  | cons b t ih =>
    by_cases hab : flagLE a b
    · simp [List.orderedInsert, hab, List.filter_cons, h]
    · have hb : ¬severityOrder b.severity = k := by
        unfold flagLE at hab
        omega
      simp [List.orderedInsert, hab, List.filter_cons, hb, ih]

theorem filter_orderedInsert_of_rank_ne (k : ℤ) (a : RedFlag)
    (h : ¬severityOrder a.severity = k) (l : List RedFlag) :
    (List.orderedInsert flagLE a l).filter
        (fun f => decide (severityOrder f.severity = k)) =
      l.filter (fun f => decide (severityOrder f.severity = k)) := by
  induction l with
  | nil => simp [List.orderedInsert, h]
  | cons b t ih =>
    by_cases hab : flagLE a b
    · simp [List.orderedInsert, hab, List.filter_cons, h]
    · simp [List.orderedInsert, hab, List.filter_cons, ih]

theorem sortFlags_filter_rank (l : List RedFlag) (k : ℤ) :
    (sortFlags l).filter (fun f => decide (severityOrder f.severity = k)) =
      l.filter (fun f => decide (severityOrder f.severity = k)) := by
  induction l with
  | nil => rfl
  | cons a t ih =>
    show (List.orderedInsert flagLE a (sortFlags t)).filter _ = _
    by_cases h : severityOrder a.severity = k
    · rw [filter_orderedInsert_of_rank_eq k a h, ih]
      simp [List.filter_cons, h]
    · rw [filter_orderedInsert_of_rank_ne k a h, ih]
      simp [List.filter_cons, h]


/-- C1: `determineRecommendation` returns `AVOID` exactly when some
collected flag is `CRITICAL` or the overall score is below 30, and
otherwise bands the overall score at 50/70/85 into `HIGH_RISK`,
`MODERATE_RISK`, `LOW_RISK` and `SAFE`; in particular one `CRITICAL` flag
forces `AVOID` even when the overall score is at least 85. -/
theorem determineRecommendation_spec :
    (∀ (overall : ℤ) (redFlags : List RedFlag),
      determineRecommendation overall redFlags =
        if (∃ f ∈ redFlags, f.severity = Severity.CRITICAL) ∨ overall < 30 then
          Recommendation.AVOID
        else if overall < 50 then Recommendation.HIGH_RISK
        else if overall < 70 then Recommendation.MODERATE_RISK
        else if overall < 85 then Recommendation.LOW_RISK
        else Recommendation.SAFE) ∧
    (∀ (overall : ℤ) (redFlags : List RedFlag) (f : RedFlag), f ∈ redFlags →
      f.severity = Severity.CRITICAL → 85 ≤ overall →
      determineRecommendation overall redFlags = Recommendation.AVOID) := by
  have hmain : ∀ (overall : ℤ) (redFlags : List RedFlag),
      determineRecommendation overall redFlags =
        if (∃ f ∈ redFlags, f.severity = Severity.CRITICAL) ∨ overall < 30 then
          Recommendation.AVOID
        else if overall < 50 then Recommendation.HIGH_RISK
        else if overall < 70 then Recommendation.MODERATE_RISK
        else if overall < 85 then Recommendation.LOW_RISK
        else Recommendation.SAFE := by
    intro overall redFlags
    simp [determineRecommendation, List.any_eq_true]
  refine ⟨hmain, fun overall redFlags f hf hs _ => ?_⟩
  rw [hmain]
  have hc : (∃ g ∈ redFlags, g.severity = Severity.CRITICAL) ∨ overall < 30 :=
    Or.inl ⟨f, hf, hs⟩
  simp [hc]

/-- Witness for C1: a `CRITICAL` team flag forces `AVOID` at overall 90. -/
theorem determineRecommendation_spec_witness :
    determineRecommendation 90
      [⟨Severity.CRITICAL, Category.TEAM, "Team has history of scam projects",
        some "Team members involved in previous rug pulls or scams"⟩] =
      Recommendation.AVOID :=
  determineRecommendation_spec.2 90 _ _ (List.mem_singleton.mpr rfl) rfl (by norm_num)

/-- C10: the result of `detectScam` does not depend on the `ProjectData`
argument at all (the pattern matcher takes it but never reads it), so for
any two projects and otherwise identical inputs the results agree in
every field. -/
theorem detectScam_ignores_projectData (pd1 pd2 : ProjectData)
    (ca : ContractAnalysis) (tk : Option TokenomicsAnalysis)
    (tm : Option TeamAnalysis) (cm : Option CommunityAnalysis)
    (registry : Except String (List ScamPattern)) (now : ℤ) :
    detectScam pd1 ca tk tm cm registry now =
      detectScam pd2 ca tk tm cm registry now := rfl

/-- Counterexample for C4: with the ambient clock `Date.now()` made
explicit, two calls of `detectScam` on identical inputs and registry but
different clock readings return different records — already the
`analysisTimestamp` fields differ — so repeated calls are not
bit-identical as the claim states. -/
theorem detectScam_two_calls_cex :
    Except.map RiskScore.analysisTimestamp
        (detectScam sampleProject honestAnalysis none none none (Except.ok []) 0) =
      Except.ok 0 ∧
    Except.map RiskScore.analysisTimestamp
        (detectScam sampleProject honestAnalysis none none none (Except.ok []) 1) =
      Except.ok 1 ∧
    detectScam sampleProject honestAnalysis none none none (Except.ok []) 0 ≠
      detectScam sampleProject honestAnalysis none none none (Except.ok []) 1 := by
  have h0 : Except.map RiskScore.analysisTimestamp
      (detectScam sampleProject honestAnalysis none none none (Except.ok []) 0) =
      Except.ok 0 := rfl
  have h1 : Except.map RiskScore.analysisTimestamp
      (detectScam sampleProject honestAnalysis none none none (Except.ok []) 1) =
      Except.ok 1 := rfl
  refine ⟨h0, h1, fun h => ?_⟩
  have h2 := congrArg (Except.map RiskScore.analysisTimestamp) h
  rw [h0, h1] at h2
  simp at h2

/-- C4 as amended: `detectScam` is deterministic once the clock reading is
fixed along with the inputs and the registry snapshot: two calls with
equal clock readings return identical records in every field. -/
theorem detectScam_deterministic (pd : ProjectData) (ca : ContractAnalysis)
    (tk : Option TokenomicsAnalysis) (tm : Option TeamAnalysis)
    (cm : Option CommunityAnalysis) (registry : Except String (List ScamPattern))
    (t1 t2 : ℤ) (h : t1 = t2) :
    detectScam pd ca tk tm cm registry t1 = detectScam pd ca tk tm cm registry t2 := by
  rw [h]

/-- Witness for the amended C4. -/
theorem detectScam_deterministic_witness :
    detectScam sampleProject honestAnalysis none none none (Except.ok []) 0 =
      detectScam sampleProject honestAnalysis none none none (Except.ok []) 0 :=
  detectScam_deterministic sampleProject honestAnalysis none none none
    (Except.ok []) 0 0 rfl

/-- Counterexample for C5: `matchScamPatterns` has no try/catch, so a
failed registry lookup propagates out of `detectScam` instead of being
reported as zero pattern matches: no `RiskScore` is returned. -/
theorem detectScam_registry_error_cex :
    detectScam sampleProject honestAnalysis none none none
      (Except.error "storage unavailable") 0 =
      Except.error "storage unavailable" := rfl

/-- C5 as amended: a failed registry lookup propagates to the caller; when
the lookup succeeds the score is computed from the contract, tokenomics,
team and community flags plus the pattern flags, and an empty registry
contributes zero pattern flags. -/
theorem detectScam_registry_spec :
    (∀ (pd : ProjectData) (ca : ContractAnalysis) (tk : Option TokenomicsAnalysis)
      (tm : Option TeamAnalysis) (cm : Option CommunityAnalysis) (e : String)
      (now : ℤ), detectScam pd ca tk tm cm (Except.error e) now = Except.error e) ∧
    (∀ (pd : ProjectData) (ca : ContractAnalysis) (tk : Option TokenomicsAnalysis)
      (tm : Option TeamAnalysis) (cm : Option CommunityAnalysis)
      (ps : List ScamPattern) (now : ℤ),
      detectScam pd ca tk tm cm (Except.ok ps) now =
        Except.ok (buildRiskScore ca tk tm cm
          (collectBaseRedFlags ca tk tm cm now ++ matchScamPatternsOk ps ca) now)) ∧
    (∀ ca : ContractAnalysis, matchScamPatternsOk [] ca = []) :=
  ⟨fun _ _ _ _ _ _ _ => rfl, fun _ _ _ _ _ _ _ => rfl, fun _ => rfl⟩

theorem calculateContractSafety_bounds (ca : ContractAnalysis)
    (flags : List RedFlag) :
    0 ≤ calculateContractSafety ca flags ∧ calculateContractSafety ca flags ≤ 100 := by
  unfold calculateContractSafety
  exact ⟨clampScore_nonneg _, clampScore_le_hundred _⟩

theorem calculateTokenomicsScore_bounds (tk : TokenomicsAnalysis)
    (flags : List RedFlag) :
    0 ≤ calculateTokenomicsScore tk flags ∧ calculateTokenomicsScore tk flags ≤ 100 := by
  unfold calculateTokenomicsScore
  exact ⟨clampScore_nonneg _, clampScore_le_hundred _⟩

theorem calculateTeamScore_bounds (tm : TeamAnalysis) (flags : List RedFlag) :
    0 ≤ calculateTeamScore tm flags ∧ calculateTeamScore tm flags ≤ 100 := by
  unfold calculateTeamScore
  exact ⟨clampScore_nonneg _, clampScore_le_hundred _⟩

theorem calculateCommunityScore_bounds (cm : CommunityAnalysis)
    (flags : List RedFlag) :
    0 ≤ calculateCommunityScore cm flags ∧ calculateCommunityScore cm flags ≤ 100 := by
  unfold calculateCommunityScore
  exact ⟨clampScore_nonneg _, clampScore_le_hundred _⟩

theorem calculateLiquidityRisk_bounds (ca : ContractAnalysis)
    (flags : List RedFlag) :
    0 ≤ calculateLiquidityRisk ca flags ∧ calculateLiquidityRisk ca flags ≤ 100 := by
  unfold calculateLiquidityRisk
  exact ⟨clampScore_nonneg _, clampScore_le_hundred _⟩

theorem tokenomicsScoreOpt_bounds (tk : Option TokenomicsAnalysis)
    (flags : List RedFlag) :
    0 ≤ tokenomicsScoreOpt tk flags ∧ tokenomicsScoreOpt tk flags ≤ 100 := by
  cases tk with
  | none => exact ⟨show (0:ℤ) ≤ 50 by norm_num, show (50:ℤ) ≤ 100 by norm_num⟩
  | some t => exact calculateTokenomicsScore_bounds t flags

theorem teamScoreOpt_bounds (tm : Option TeamAnalysis) (flags : List RedFlag) :
    0 ≤ teamScoreOpt tm flags ∧ teamScoreOpt tm flags ≤ 100 := by
  cases tm with
  | none => exact ⟨show (0:ℤ) ≤ 50 by norm_num, show (50:ℤ) ≤ 100 by norm_num⟩
  | some t => exact calculateTeamScore_bounds t flags

theorem communityScoreOpt_bounds (cm : Option CommunityAnalysis)
    (flags : List RedFlag) :
    0 ≤ communityScoreOpt cm flags ∧ communityScoreOpt cm flags ≤ 100 := by
  cases cm with
  | none => exact ⟨show (0:ℤ) ≤ 50 by norm_num, show (50:ℤ) ≤ 100 by norm_num⟩
  | some c => exact calculateCommunityScore_bounds c flags

/-- C2: for every combination of inputs and every red-flag list (however
adversarial), each of the five sub-scores stays within `[0,100]`, and so
do all six score fields of any `RiskScore` returned by `detectScam`. -/
theorem scores_clamped :
    (∀ (ca : ContractAnalysis) (flags : List RedFlag),
      0 ≤ calculateContractSafety ca flags ∧ calculateContractSafety ca flags ≤ 100) ∧
    (∀ (tk : TokenomicsAnalysis) (flags : List RedFlag),
      0 ≤ calculateTokenomicsScore tk flags ∧ calculateTokenomicsScore tk flags ≤ 100) ∧
    (∀ (tm : TeamAnalysis) (flags : List RedFlag),
      0 ≤ calculateTeamScore tm flags ∧ calculateTeamScore tm flags ≤ 100) ∧
    (∀ (cm : CommunityAnalysis) (flags : List RedFlag),
      0 ≤ calculateCommunityScore cm flags ∧ calculateCommunityScore cm flags ≤ 100) ∧
    (∀ (ca : ContractAnalysis) (flags : List RedFlag),
      0 ≤ calculateLiquidityRisk ca flags ∧ calculateLiquidityRisk ca flags ≤ 100) ∧
    (∀ (pd : ProjectData) (ca : ContractAnalysis) (tk : Option TokenomicsAnalysis)
      (tm : Option TeamAnalysis) (cm : Option CommunityAnalysis)
      (ps : List ScamPattern) (now : ℤ) (rs : RiskScore),
      detectScam pd ca tk tm cm (Except.ok ps) now = Except.ok rs →
        (0 ≤ rs.contractSafety ∧ rs.contractSafety ≤ 100) ∧
        (0 ≤ rs.tokenomics ∧ rs.tokenomics ≤ 100) ∧
        (0 ≤ rs.teamCredibility ∧ rs.teamCredibility ≤ 100) ∧
        (0 ≤ rs.communityHealth ∧ rs.communityHealth ≤ 100) ∧
        (0 ≤ rs.liquidityRisk ∧ rs.liquidityRisk ≤ 100) ∧
        (0 ≤ rs.overall ∧ rs.overall ≤ 100)) := by
  refine ⟨calculateContractSafety_bounds, calculateTokenomicsScore_bounds,
    calculateTeamScore_bounds, calculateCommunityScore_bounds,
    calculateLiquidityRisk_bounds, ?_⟩
  intro pd ca tk tm cm ps now rs h
  rw [detectScam_ok_eq, Except.ok.injEq] at h
  subst h
  set flags := collectBaseRedFlags ca tk tm cm now ++ matchScamPatternsOk ps ca with hflags
  have h1 := calculateContractSafety_bounds ca flags
  have h2 := tokenomicsScoreOpt_bounds tk flags
  have h3 := teamScoreOpt_bounds tm flags
  have h4 := communityScoreOpt_bounds cm flags
  have h5 := calculateLiquidityRisk_bounds ca flags
  refine ⟨h1, h2, h3, h4, h5, ?_⟩
  rw [buildRiskScore_overall]
  omega

/-- Witness for C2 at a concrete call of `detectScam`. -/
theorem scores_clamped_witness :
    (0 ≤ (buildRiskScore honestAnalysis none none none [] 0).contractSafety ∧
      (buildRiskScore honestAnalysis none none none [] 0).contractSafety ≤ 100) ∧
    (0 ≤ (buildRiskScore honestAnalysis none none none [] 0).tokenomics ∧
      (buildRiskScore honestAnalysis none none none [] 0).tokenomics ≤ 100) ∧
    (0 ≤ (buildRiskScore honestAnalysis none none none [] 0).teamCredibility ∧
      (buildRiskScore honestAnalysis none none none [] 0).teamCredibility ≤ 100) ∧
    (0 ≤ (buildRiskScore honestAnalysis none none none [] 0).communityHealth ∧
      (buildRiskScore honestAnalysis none none none [] 0).communityHealth ≤ 100) ∧
    (0 ≤ (buildRiskScore honestAnalysis none none none [] 0).liquidityRisk ∧
      (buildRiskScore honestAnalysis none none none [] 0).liquidityRisk ≤ 100) ∧
    (0 ≤ (buildRiskScore honestAnalysis none none none [] 0).overall ∧
      (buildRiskScore honestAnalysis none none none [] 0).overall ≤ 100) :=
  scores_clamped.2.2.2.2.2 sampleProject honestAnalysis none none none [] 0
    (buildRiskScore honestAnalysis none none none [] 0) rfl

/-- C9 (strengthened to drop the category hypothesis): appending one more
red flag to an otherwise fixed input never increases any of the five
sub-scores — in particular not the sub-score of the dimension the new
category of the flag maps to; a flag of another category leaves that dimension
unchanged. -/
theorem subScores_antitone :
    ∀ (flags : List RedFlag) (f : RedFlag),
      (∀ ca : ContractAnalysis,
        calculateContractSafety ca (flags ++ [f]) ≤ calculateContractSafety ca flags) ∧
      (∀ tk : TokenomicsAnalysis,
        calculateTokenomicsScore tk (flags ++ [f]) ≤ calculateTokenomicsScore tk flags) ∧
      (∀ tm : TeamAnalysis,
        calculateTeamScore tm (flags ++ [f]) ≤ calculateTeamScore tm flags) ∧
      (∀ cm : CommunityAnalysis,
        calculateCommunityScore cm (flags ++ [f]) ≤ calculateCommunityScore cm flags) ∧
      (∀ ca : ContractAnalysis,
        calculateLiquidityRisk ca (flags ++ [f]) ≤ calculateLiquidityRisk ca flags) := by
  intro flags f
  refine ⟨fun ca => ?_, fun tk => ?_, fun tm => ?_, fun cm => ?_, fun ca => ?_⟩
  · unfold calculateContractSafety
    apply clampScore_mono
    have h := deductionSum_append_le (fun g => decide (g.category = Category.CONTRACT))
      (fun g => contractDeduction g.severity)
      (fun g => contractDeduction_nonneg g.severity) flags f
    linarith
  · unfold calculateTokenomicsScore
    apply clampScore_mono
    have h := deductionSum_append_le (fun g => decide (g.category = Category.TOKENOMICS))
      (fun g => contractDeduction g.severity)
      (fun g => contractDeduction_nonneg g.severity) flags f
    linarith
  · unfold calculateTeamScore
    apply clampScore_mono
    have h := deductionSum_append_le (fun g => decide (g.category = Category.TEAM))
      (fun g => teamDeduction g.severity)
      (fun g => teamDeduction_nonneg g.severity) flags f
    linarith
  · unfold calculateCommunityScore
    apply clampScore_mono
    have h := deductionSum_append_le (fun g => decide (g.category = Category.COMMUNITY))
      (fun g => communityDeduction g.severity)
      (fun g => communityDeduction_nonneg g.severity) flags f
    linarith
  · unfold calculateLiquidityRisk
    apply clampScore_mono
    have h := deductionSum_append_le (fun g => decide (g.category = Category.LIQUIDITY))
      (fun g => liquidityDeduction g.severity)
      (fun g => liquidityDeduction_nonneg g.severity) flags f
    linarith

/-- Counterexample for C6: on the fully honest token with no optional
inputs and an empty registry, `contractSafety` is indeed 100, but the
neutral 50 defaults pull the weighted overall down to 68, so the
recommendation is `MODERATE_RISK` — not `LOW_RISK` or `SAFE` as claimed. -/
theorem honest_token_cex :
    Except.map RiskScore.contractSafety
        (detectScam sampleProject honestAnalysis none none none (Except.ok []) 0) =
      Except.ok 100 ∧
    Except.map RiskScore.recommendation
        (detectScam sampleProject honestAnalysis none none none (Except.ok []) 0) =
      Except.ok Recommendation.MODERATE_RISK ∧
    Recommendation.MODERATE_RISK ≠ Recommendation.LOW_RISK ∧
    Recommendation.MODERATE_RISK ≠ Recommendation.SAFE := by
  refine ⟨rfl, ?_, by decide, by decide⟩
  rw [detectScam_ok_eq]
  simp only [Except.map]
  rw [buildRiskScore_recommendation, Except.ok.injEq]
  decide

/-- C6 as amended: the honest-token scenario yields `contractSafety =
100`, but `overall = round(100·0.3 + 50·0.25 + 50·0.2 + 50·0.15 +
80·0.1) = 68`, hence recommendation `MODERATE_RISK`. -/
theorem honest_token_scores :
    Except.map RiskScore.contractSafety
        (detectScam sampleProject honestAnalysis none none none (Except.ok []) 0) =
      Except.ok 100 ∧
    Except.map RiskScore.liquidityRisk
        (detectScam sampleProject honestAnalysis none none none (Except.ok []) 0) =
      Except.ok 80 ∧
    Except.map RiskScore.overall
        (detectScam sampleProject honestAnalysis none none none (Except.ok []) 0) =
      Except.ok 68 ∧
    Except.map RiskScore.recommendation
        (detectScam sampleProject honestAnalysis none none none (Except.ok []) 0) =
      Except.ok Recommendation.MODERATE_RISK := by
  refine ⟨rfl, rfl, ?_, ?_⟩
  · rw [detectScam_ok_eq]
    simp only [Except.map]
    rw [buildRiskScore_overall, Except.ok.injEq]
    decide
  · rw [detectScam_ok_eq]
    simp only [Except.map]
    rw [buildRiskScore_recommendation, Except.ok.injEq]
    decide

theorem buildRiskScore_contractSafety (ca : ContractAnalysis)
    (tk : Option TokenomicsAnalysis) (tm : Option TeamAnalysis)
    (cm : Option CommunityAnalysis) (redFlags : List RedFlag) (now : ℤ) :
    (buildRiskScore ca tk tm cm redFlags now).contractSafety =
      calculateContractSafety ca redFlags := rfl

theorem buildRiskScore_redFlags (ca : ContractAnalysis)
    (tk : Option TokenomicsAnalysis) (tm : Option TeamAnalysis)
    (cm : Option CommunityAnalysis) (redFlags : List RedFlag) (now : ℤ) :
    (buildRiskScore ca tk tm cm redFlags now).redFlags = sortFlags redFlags := rfl

theorem buildRiskScore_warnings (ca : ContractAnalysis)
    (tk : Option TokenomicsAnalysis) (tm : Option TeamAnalysis)
    (cm : Option CommunityAnalysis) (redFlags : List RedFlag) (now : ℤ) :
    (buildRiskScore ca tk tm cm redFlags now).warnings =
      generateWarnings redFlags := rfl

/-- Counterexample for C3: an analysis with `verified = false` but
`ownershipRenounced = true` and `lpLocked = true` collects the CRITICAL
unverified flag yet scores `contractSafety = 100 - 30 + 10 + 10 = 90 >
70`, so "any `ContractAnalysis` with `verified = false` ... yields
`contractSafety ≤ 70`" fails as stated. -/
theorem unverified_bonused_cex :
    Except.map RiskScore.contractSafety
        (detectScam sampleProject unverifiedBonusedAnalysis none none none
          (Except.ok []) 0) =
      Except.ok 90 ∧
    ¬((90 : ℤ) ≤ 70) := ⟨rfl, by norm_num⟩

/-- C3 as amended: when the source is absent or unverified,
`analyzeContract` returns an analysis with `verified = false` and every
capability boolean false (taxes zero), without consulting the textual
detectors at all; and assessing any `ContractAnalysis` with
`verified = false` that carries no bonus fields (`ownershipRenounced =
false`, `lpLocked = false` — in particular the analysis the scanner
returns for an unverified source) with no optional inputs yields at least
one CRITICAL flag and `contractSafety ≤ 70`. -/
theorem unverified_source_spec :
    (∀ (det det2 : SourceDetectors) (sourceInfo : Option SourceInfo)
      (creation : Option ContractCreation),
      sourceInfo = none ∨ (∃ s, sourceInfo = some s ∧ s.isVerified = false) →
      ((analyzeContract det sourceInfo creation).verified = false ∧
       (analyzeContract det sourceInfo creation).isProxy = false ∧
       (analyzeContract det sourceInfo creation).hasHoneypot = false ∧
       (analyzeContract det sourceInfo creation).hasMintFunction = false ∧
       (analyzeContract det sourceInfo creation).hasPauseFunction = false ∧
       (analyzeContract det sourceInfo creation).hasBlacklist = false ∧
       (analyzeContract det sourceInfo creation).hasWhitelist = false ∧
       (analyzeContract det sourceInfo creation).buyTax = 0 ∧
       (analyzeContract det sourceInfo creation).sellTax = 0 ∧
       (analyzeContract det sourceInfo creation).ownershipRenounced = false ∧
       (analyzeContract det sourceInfo creation).lpLocked = false) ∧
      analyzeContract det sourceInfo creation =
        analyzeContract det2 sourceInfo creation) ∧
    (∀ (pd : ProjectData) (ca : ContractAnalysis) (ps : List ScamPattern)
      (now : ℤ) (rs : RiskScore), ca.verified = false →
      ca.ownershipRenounced = false → ca.lpLocked = false →
      detectScam pd ca none none none (Except.ok ps) now = Except.ok rs →
      (∃ f ∈ rs.redFlags, f.severity = Severity.CRITICAL) ∧
      rs.contractSafety ≤ 70) := by
  constructor
  · intro det det2 sourceInfo creation h
    rcases h with rfl | ⟨s, rfl, hs⟩
    · exact ⟨⟨rfl, rfl, rfl, rfl, rfl, rfl, rfl, rfl, rfl, rfl, rfl⟩, rfl⟩
    · simp [analyzeContract, hs]
  · intro pd ca ps now rs hv hr hl h
    rw [detectScam_ok_eq, Except.ok.injEq] at h
    subst h
    have hmem1 : unverifiedSourceFlag ∈ generateRedFlags ca now := by
      unfold generateRedFlags unverifiedSourceFlag
      simp [hv]
    have hmemf : unverifiedSourceFlag ∈
        collectBaseRedFlags ca none none none now ++ matchScamPatternsOk ps ca := by
      simp only [collectBaseRedFlags]
      simp [hmem1]
    constructor
    · refine ⟨unverifiedSourceFlag, ?_, rfl⟩
      rw [buildRiskScore_redFlags]
      exact ((sortFlags_perm _).mem_iff).mpr hmemf
    · rw [buildRiskScore_contractSafety]
      unfold calculateContractSafety
      have h30 : (30:ℤ) ≤
          (((collectBaseRedFlags ca none none none now ++
            matchScamPatternsOk ps ca).filter
              (fun g => decide (g.category = Category.CONTRACT))).map
                (fun g => contractDeduction g.severity)).sum := by
        apply List.single_le_sum
        · intro x hx
          rcases List.mem_map.mp hx with ⟨g, _, rfl⟩
          exact contractDeduction_nonneg g.severity
        · exact List.mem_map.mpr ⟨unverifiedSourceFlag,
            List.mem_filter.mpr ⟨hmemf, by decide⟩, rfl⟩
      simp only [hv, hr, hl, if_false, Bool.false_eq_true]
      have hc : clampScore (100 -
          (((collectBaseRedFlags ca none none none now ++
            matchScamPatternsOk ps ca).filter
              (fun g => decide (g.category = Category.CONTRACT))).map
                (fun g => contractDeduction g.severity)).sum + 0 + 0 + 0) ≤
          clampScore 70 := clampScore_mono (by linarith)
      rw [show clampScore 70 = (70:ℤ) from by decide] at hc
      exact hc

/-- Witness for the amended C3: the early return on an absent source, and
the floor on the unverified default analysis of the scanner. -/
theorem unverified_source_spec_witness :
    (analyzeContract trivialDetectors none none).verified = false ∧
    (∃ f ∈ (buildRiskScore unverifiedAnalysis none none none
        (collectBaseRedFlags unverifiedAnalysis none none none 0 ++
          matchScamPatternsOk [] unverifiedAnalysis) 0).redFlags,
      f.severity = Severity.CRITICAL) ∧
    (buildRiskScore unverifiedAnalysis none none none
        (collectBaseRedFlags unverifiedAnalysis none none none 0 ++
          matchScamPatternsOk [] unverifiedAnalysis) 0).contractSafety ≤ 70 := by
  have h1 := (unverified_source_spec.1 trivialDetectors trivialDetectors none none
    (Or.inl rfl)).1.1
  have h2 := unverified_source_spec.2 sampleProject unverifiedAnalysis [] 0 _
    rfl rfl rfl rfl
  exact ⟨h1, h2.1, h2.2⟩

/-- C7: each registry pattern contributes exactly one flag when at least
one of its indicators matches (OR semantics, at most one flag per
pattern), carrying the severity, category and description of the pattern itself
with the match labels joined by a comma as evidence; an indicator name
the engine does not recognize is treated as non-matching and never aborts
the rest of the pattern or the other patterns. -/
theorem patternMatching_spec :
    (∀ (patterns : List ScamPattern) (ca : ContractAnalysis),
      matchScamPatternsOk patterns ca = patterns.flatMap (fun p =>
        if checkPatternMatch p.indicators ca = [] then []
        else [⟨p.severity, p.patternType, p.description,
          some (String.intercalate ", " (checkPatternMatch p.indicators ca))⟩])) ∧
    (∀ (inds : List String) (ca : ContractAnalysis),
      checkPatternMatch inds ca ≠ [] ↔ ∃ ind ∈ inds, indicatorMatches ind ca ≠ []) ∧
    (∀ (ind : String) (inds : List String) (ca : ContractAnalysis),
      ¬(ind = "is_proxy" ∨ ind = "has_mint" ∨ ind = "ownership_not_renounced" ∨
        ind = "lp_not_locked") →
      checkPatternMatch (ind :: inds) ca = checkPatternMatch inds ca) := by
  refine ⟨fun patterns ca => ?_, fun inds ca => ?_, fun ind inds ca h => ?_⟩
  · unfold matchScamPatternsOk
    have hfn : (fun p : ScamPattern =>
        let matchLabels := checkPatternMatch p.indicators ca
        if matchLabels.length > 0 then
          [(⟨p.severity, p.patternType, p.description,
            some (String.intercalate ", " matchLabels)⟩ : RedFlag)]
        else []) = fun p : ScamPattern =>
        if checkPatternMatch p.indicators ca = [] then []
        else [⟨p.severity, p.patternType, p.description,
          some (String.intercalate ", " (checkPatternMatch p.indicators ca))⟩] := by
      funext p
      by_cases hm : checkPatternMatch p.indicators ca = []
      · simp [hm]
      · simp [hm, List.length_pos]
    rw [hfn]
  · induction inds with
    | nil => simp [checkPatternMatch]
    | cons a t ih =>
      unfold checkPatternMatch at ih ⊢
      simp only [List.flatMap_cons, ne_eq, List.append_eq_nil, not_and_or] at *
      rw [ih]
      simp [or_assoc]
  · push_neg at h
    unfold checkPatternMatch
    simp [List.flatMap_cons, indicatorMatches, h.1, h.2.1, h.2.2.1, h.2.2.2]

/-- Witness for C7: the unrecognized indicator name `bogus` is skipped
without affecting the evaluation of the remaining indicators. -/
theorem patternMatching_spec_witness :
    checkPatternMatch ["bogus", "is_proxy"] honestAnalysis =
      checkPatternMatch ["is_proxy"] honestAnalysis :=
  patternMatching_spec.2.2 "bogus" ["is_proxy"] honestAnalysis (by decide)

/-- Counterexample for C8: `generateWarnings` sorts the collected flag
array in place (`Array.prototype.sort`), so the `redFlags` list in the
returned record is severity-sorted, not in insertion order: on an input
whose flags are collected MEDIUM-then-HIGH, the returned list is
HIGH-then-MEDIUM. -/
theorem inPlaceSort_cex :
    Except.map RiskScore.redFlags
        (detectScam sampleProject blacklistYoungAnalysis none none none
          (Except.ok []) 2000) ≠
      Except.ok (collectBaseRedFlags blacklistYoungAnalysis none none none 2000 ++
        matchScamPatternsOk [] blacklistYoungAnalysis) := by
  intro h
  have h1 : Except.map RiskScore.redFlags
      (detectScam sampleProject blacklistYoungAnalysis none none none
        (Except.ok []) 2000) =
      Except.ok [⟨Severity.HIGH, Category.LIQUIDITY,
          "Liquidity not locked for new token",
          some "LP tokens are not locked, rug pull risk"⟩,
        ⟨Severity.MEDIUM, Category.CONTRACT, "Contract can blacklist addresses",
          some "Owner can prevent specific addresses from trading"⟩] := rfl
  have h2 : collectBaseRedFlags blacklistYoungAnalysis none none none 2000 ++
      matchScamPatternsOk [] blacklistYoungAnalysis =
      [⟨Severity.MEDIUM, Category.CONTRACT, "Contract can blacklist addresses",
          some "Owner can prevent specific addresses from trading"⟩,
        ⟨Severity.HIGH, Category.LIQUIDITY, "Liquidity not locked for new token",
          some "LP tokens are not locked, rug pull risk"⟩] := rfl
  rw [h1, h2, Except.ok.injEq] at h
  exact absurd h (by decide)

/-- C8 as amended: `warnings` is the severity-sorted rendering
`"[SEVERITY] description"` (ascending CRITICAL, HIGH, MEDIUM, LOW; the
sort is stable, so flags of equal severity keep collection order), but
because the sort happens in place the returned `redFlags` list is that
same sorted list rather than the insertion-order list. -/
theorem warnings_sorted_spec :
    ∀ (pd : ProjectData) (ca : ContractAnalysis) (tk : Option TokenomicsAnalysis)
      (tm : Option TeamAnalysis) (cm : Option CommunityAnalysis)
      (ps : List ScamPattern) (now : ℤ) (rs : RiskScore),
      detectScam pd ca tk tm cm (Except.ok ps) now = Except.ok rs →
      rs.redFlags = sortFlags (collectBaseRedFlags ca tk tm cm now ++
        matchScamPatternsOk ps ca) ∧
      rs.warnings = rs.redFlags.map
        (fun f => "[" ++ severityName f.severity ++ "] " ++ f.description) ∧
      List.Sorted flagLE rs.redFlags ∧
      (∀ k : ℤ, rs.redFlags.filter (fun f => decide (severityOrder f.severity = k)) =
        (collectBaseRedFlags ca tk tm cm now ++ matchScamPatternsOk ps ca).filter
          (fun f => decide (severityOrder f.severity = k))) := by
  intro pd ca tk tm cm ps now rs h
  rw [detectScam_ok_eq, Except.ok.injEq] at h
  subst h
  refine ⟨buildRiskScore_redFlags _ _ _ _ _ _, ?_, ?_, ?_⟩
  · rw [buildRiskScore_warnings, buildRiskScore_redFlags]
    rfl
  · rw [buildRiskScore_redFlags]
    exact sortFlags_sorted _
  · intro k
    rw [buildRiskScore_redFlags]
    exact sortFlags_filter_rank _ k

/-- Witness for the amended C8 at a concrete call. -/
theorem warnings_sorted_spec_witness :
    (buildRiskScore blacklistYoungAnalysis none none none
        (collectBaseRedFlags blacklistYoungAnalysis none none none 2000 ++
          matchScamPatternsOk [] blacklistYoungAnalysis) 2000).redFlags =
      sortFlags (collectBaseRedFlags blacklistYoungAnalysis none none none 2000 ++
        matchScamPatternsOk [] blacklistYoungAnalysis) :=
  (warnings_sorted_spec sampleProject blacklistYoungAnalysis none none none
    [] 2000 _ rfl).1
